import Mathlib

/-!
Shallow embedding of the raw-UDP socket in src/udp/src/lib.rs.

The socket builds a UDP datagram (8-byte header plus payload), computes the
IPv4 pseudo-header checksum via pnet's udp::ipv4_checksum / util::ipv4_checksum,
and scans inbound packets for ones whose destination port matches the bound
port with a valid (or zero, i.e. disabled) checksum.

Bytes are modelled as Nat (values < 256 in practice), u16 fields as Nat with
explicit % 65536 where the Rust code performs an `as u16` cast, and the u32
accumulator of the checksum as Nat with an explicit % 2^32.
-/

/-- Rust std::net::Ipv4Addr: four octets. -/
structure Ipv4Addr where
  a : Nat
  b : Nat
  c : Nat
  d : Nat
deriving DecidableEq, Repr

/-- Rust std::net::IpAddr: V4 or V6. The V6 payload is never inspected by the
code under study, so it is not modelled. -/
inductive IpAddr
  | v4 (ip : Ipv4Addr)
  | v6
deriving DecidableEq, Repr

/-- Rust std::net::SocketAddr: V4 carries address and port, V6 is only ever
matched by a wildcard in the code. -/
inductive SockAddr
  | v4 (ip : Ipv4Addr) (port : Nat)
  | v6
deriving DecidableEq, Repr

/-- LOCAL_ADDR = "127.0.0.1".parse::<Ipv4Addr>() — the hardcoded loopback
address used on both the send and the receive path. -/
def localAddr : Ipv4Addr := ⟨127, 0, 0, 1⟩

/-! ## pnet checksum primitives (pnet::util, pnet::packet::udp) -/

/-- pnet util::ipv4_word_sum: the two big-endian 16-bit words of an address. -/
def ipv4WordSum (ip : Ipv4Addr) : Nat :=
  (256 * ip.a + ip.b) + (256 * ip.c + ip.d)

/-- The big-endian 16-bit word of `data` at word index `i`
(bytes `2*i` and `2*i+1`; missing bytes read as 0). -/
def word16At (data : List Nat) (i : Nat) : Nat :=
  256 * data.getD (2 * i) 0 + data.getD (2 * i + 1) 0

/-- pnet util::sum_be_words: sum of all big-endian 16-bit words of `data`,
skipping the word at index `skipword`; a trailing odd byte is summed
shifted left by 8 (padded with a zero byte). -/
def sumBeWords (data : List Nat) (skipword : Nat) : Nat :=
  ((List.range (data.length / 2)).map fun i =>
      if i = skipword then 0 else word16At data i).sum
    + (if data.length % 2 = 1 then 256 * data.getD (data.length - 1) 0 else 0)

/-- One round of pnet util::finalize_checksum's carry loop:
`sum = (sum >> 16) + (sum & 0xFFFF)`. -/
def carryRound (s : Nat) : Nat := s / 65536 + s % 65536

/-- Fuel-indexed unfolding of the `while sum >> 16 != 0` loop of
util::finalize_checksum. Each taken iteration strictly decreases `s`
(for `65536 ≤ s` one has `s / 65536 + s % 65536 < s`), so fuel `s`
always suffices and `foldCarryAux s s` is exactly the loop's result. -/
def foldCarryAux : Nat → Nat → Nat
  | 0, s => s
  | fuel + 1, s => if 65536 ≤ s then foldCarryAux fuel (carryRound s) else s

/-- pnet util::finalize_checksum: fold the carries, then `!sum as u16`.
After the loop the value is below 2^16, so the complement is `65535 - s`. -/
def finalizeChecksum (sum : Nat) : Nat :=
  65535 - foldCarryAux sum sum

/-- pnet util::ipv4_checksum specialised as udp::ipv4_checksum uses it:
skipword 3 (the UDP checksum field), no extra data, next-level protocol 17.
The pseudo-header sums both addresses, the protocol number and `data.len()`;
the u32 accumulator wraps modulo 2^32. -/
def ipv4Checksum (data : List Nat) (source destination : Ipv4Addr) : Nat :=
  finalizeChecksum
    ((ipv4WordSum source + ipv4WordSum destination + 17 + data.length
        + sumBeWords data 3) % 4294967296)

/-! ## UDP header accessors (pnet MutableUdpPacket setters / UdpPacket getters) -/

/-- The 8 header bytes written by set_source / set_destination / set_length /
set_checksum: each u16 value stored big-endian (`(v >> 8) as u8`, `v as u8`). -/
def udpHeader (source destination totalLength checksum : Nat) : List Nat :=
  [source / 256 % 256, source % 256,
   destination / 256 % 256, destination % 256,
   totalLength / 256 % 256, totalLength % 256,
   checksum / 256 % 256, checksum % 256]

/-- UdpPacket::get_source: big-endian u16 at bytes 0–1. -/
def getSource (bytes : List Nat) : Nat :=
  256 * bytes.getD 0 0 + bytes.getD 1 0

/-- UdpPacket::get_destination: big-endian u16 at bytes 2–3. -/
def getDestination (bytes : List Nat) : Nat :=
  256 * bytes.getD 2 0 + bytes.getD 3 0

/-- UdpPacket::get_length: big-endian u16 at bytes 4–5. -/
def getLength (bytes : List Nat) : Nat :=
  256 * bytes.getD 4 0 + bytes.getD 5 0

/-- UdpPacket::get_checksum: big-endian u16 at bytes 6–7. -/
def getChecksum (bytes : List Nat) : Nat :=
  256 * bytes.getD 6 0 + bytes.getD 7 0

/-! ## send_to -/

/-- The packet as it stands when send_to computes the checksum: source,
destination and length fields set (`total_length as u16` wraps modulo 2^16),
payload appended, checksum field still zero. -/
def provisionalPacket (port destPort : Nat) (payload : List Nat) : List Nat :=
  udpHeader port destPort ((8 + payload.length) % 65536) 0 ++ payload

/-- The checksum send_to stores: udp::ipv4_checksum over the provisional
packet with LOCAL_ADDR as the source address and the resolved destination
IP as the destination address. -/
def sendChecksum (port destPort : Nat) (destIp : Ipv4Addr) (payload : List Nat) : Nat :=
  ipv4Checksum (provisionalPacket port destPort payload) localAddr destIp

/-- The finished packet handed to the transport: the provisional packet with
the checksum field filled in by set_checksum. -/
def builtPacket (port destPort : Nat) (destIp : Ipv4Addr) (payload : List Nat) : List Nat :=
  udpHeader port destPort ((8 + payload.length) % 65536)
      (sendChecksum port destPort destIp payload)
    ++ payload

/-- Errors send_to can raise before handing the packet to the transport:
`.context("invalid destination")` when resolution yields no address, and
`anyhow::bail!` for an IPv6 destination. Transport-level failures occur
outside the code under study. -/
inductive SendError
  | invalidDestination
  | ipv6NotSupported
deriving DecidableEq, Repr

/-- send_to: `addrs` is the list the destination resolved to
(`to_socket_addrs`); the code takes `.next()`, rejects IPv6, builds the
packet and hands it (with the destination IP) to the transport sender.
There is no size check anywhere on this path: `total_length as u16`
silently truncates. On success the value is the pair passed to
`sender.send_to`. -/
def sendTo (port : Nat) (payload : List Nat) (addrs : List SockAddr) :
    Except SendError (List Nat × Ipv4Addr) :=
  match addrs.head? with
  | none => Except.error SendError.invalidDestination
  | some (SockAddr.v4 ip destPort) =>
      Except.ok (builtPacket port destPort ip payload, ip)
  | some SockAddr.v6 => Except.error SendError.ipv6NotSupported

/-! ## recv_from -/

/-- One result of `packet_iter.next()`: either a transport failure (the io
error's contents are never inspected) or a parsed UDP packet (its raw bytes)
together with the source IP address. -/
abbrev StreamItem := Except Unit (List Nat × IpAddr)

/-- What one call of recv_from can produce once a packet passes both
filters: the Ok branch with the copied byte count and the origin socket
address, or the io::copy error propagated by `?` when the caller's buffer
cannot hold the payload. -/
inductive RecvOutcome
  | ok (n : Nat) (origin : SockAddr)
  | copyError
deriving DecidableEq, Repr

/-- The final step on a matched packet: io::copy of the payload
(`bytes.drop 8`) into the caller's buffer of capacity `cap` — an error iff
the payload does not fit — then the return of the byte count and
`SocketAddr::new(IpAddr::V4(src), get_source())`. -/
def deliver (cap : Nat) (bytes : List Nat) (src : Ipv4Addr) : RecvOutcome :=
  if (bytes.drop 8).length ≤ cap then
    RecvOutcome.ok (bytes.drop 8).length (SockAddr.v4 src (getSource bytes))
  else
    RecvOutcome.copyError

/-- recv_from's scanning loop over a finite prefix of the packet stream.
`none` means the loop is still blocked waiting for more packets.
The `if let Ok((pkt, IpAddr::V4(src)))` pattern silently skips both
iterator errors and packets with an IPv6 source; then the port filter and
the checksum filter (`ipv4_checksum` called with the packet's source IP
first and LOCAL_ADDR second) each `continue` on mismatch. -/
def recvFrom (port cap : Nat) : List StreamItem → Option RecvOutcome
  | [] => none
  | item :: rest =>
    match item with
    | Except.error _ => recvFrom port cap rest
    | Except.ok (_, IpAddr.v6) => recvFrom port cap rest
    | Except.ok (bytes, IpAddr.v4 src) =>
      if port ≠ getDestination bytes then
        recvFrom port cap rest
      else if getChecksum bytes ≠ 0 ∧ getChecksum bytes ≠ ipv4Checksum bytes src localAddr then
        recvFrom port cap rest
      else
        some (deliver cap bytes src)

/-! ## Helper lemmas about the header bytes -/

lemma udpHeader_length (s d l c : Nat) : (udpHeader s d l c).length = 8 := rfl

lemma packet_length (s d l c : Nat) (p : List Nat) :
    (udpHeader s d l c ++ p).length = 8 + p.length := by
  simp [udpHeader]
  omega

lemma getSource_packet (s d l c : Nat) (p : List Nat) (hs : s < 65536) :
    getSource (udpHeader s d l c ++ p) = s := by
  simp [getSource, udpHeader]
  omega

lemma getDestination_packet (s d l c : Nat) (p : List Nat) (hd : d < 65536) :
    getDestination (udpHeader s d l c ++ p) = d := by
  simp [getDestination, udpHeader]
  omega

lemma getLength_packet (s d l c : Nat) (p : List Nat) (hl : l < 65536) :
    getLength (udpHeader s d l c ++ p) = l := by
  simp [getLength, udpHeader]
  omega

lemma getChecksum_packet (s d l c : Nat) (p : List Nat) (hc : c < 65536) :
    getChecksum (udpHeader s d l c ++ p) = c := by
  simp [getChecksum, udpHeader]
  omega

/-- Words of the packet beyond the header read from the payload. -/
lemma word16At_high (s d l c : Nat) (p : List Nat) (j : Nat) (hj : 4 ≤ j) :
    word16At (udpHeader s d l c ++ p) j = word16At p (j - 4) := by
  unfold word16At
  rw [List.getD_append_right _ _ _ _ (by simp [udpHeader]; omega)]
  rw [List.getD_append_right _ _ _ _ (by simp [udpHeader]; omega)]
  have h1 : 2 * j - (udpHeader s d l c).length = 2 * (j - 4) := by
    simp [udpHeader]; omega
  have h2 : 2 * j + 1 - (udpHeader s d l c).length = 2 * (j - 4) + 1 := by
    simp [udpHeader]; omega
  rw [h1, h2]

/-- The checksum sum with skipword 3 does not depend on the value stored in
the checksum field (bytes 6 and 7 form exactly the skipped word 3). -/
lemma sumBeWords_skip3 (s d l c cAlt : Nat) (p : List Nat) :
    sumBeWords (udpHeader s d l c ++ p) 3 = sumBeWords (udpHeader s d l cAlt ++ p) 3 := by
  unfold sumBeWords
  rw [packet_length, packet_length]
  congr 1
  · apply congrArg List.sum
    apply List.map_congr_left
    intro i hi
    rcases i with _ | _ | _ | _ | i
    · simp [word16At, udpHeader]
    · simp [word16At, udpHeader]
    · simp [word16At, udpHeader]
    · simp
    · rw [if_neg (by omega), if_neg (by omega),
        word16At_high _ _ _ _ _ _ (by omega), word16At_high _ _ _ _ _ _ (by omega)]
  · by_cases hodd : (8 + p.length) % 2 = 1
    · rw [if_pos hodd, if_pos hodd]
      rw [List.getD_append_right _ _ _ _ (by simp [udpHeader]; omega)]
      rw [List.getD_append_right _ _ _ _ (by simp [udpHeader]; omega)]
      simp only [udpHeader_length]
    · rw [if_neg hodd, if_neg hodd]

/-- Changing the checksum field does not change the pseudo-header checksum of
the packet: the checksum word is skipped and the length is unchanged. -/
lemma ipv4Checksum_checksum_field (s d l c cAlt : Nat) (p : List Nat) (a b : Ipv4Addr) :
    ipv4Checksum (udpHeader s d l c ++ p) a b = ipv4Checksum (udpHeader s d l cAlt ++ p) a b := by
  unfold ipv4Checksum
  rw [sumBeWords_skip3 s d l c cAlt p, packet_length, packet_length]

/-- The finished checksum is a 16-bit value. -/
lemma ipv4Checksum_le (data : List Nat) (a b : Ipv4Addr) :
    ipv4Checksum data a b ≤ 65535 := by
  unfold ipv4Checksum finalizeChecksum
  exact Nat.sub_le _ _

/-! ## Step lemmas for the receive loop -/

lemma recvFrom_nil (port cap : Nat) : recvFrom port cap [] = none := rfl

lemma recvFrom_error_step (port cap : Nat) (e : Unit) (rest : List StreamItem) :
    recvFrom port cap (Except.error e :: rest) = recvFrom port cap rest := rfl

lemma recvFrom_v6_step (port cap : Nat) (bytes : List Nat) (rest : List StreamItem) :
    recvFrom port cap (Except.ok (bytes, IpAddr.v6) :: rest) = recvFrom port cap rest := rfl

lemma recvFrom_v4_step (port cap : Nat) (bytes : List Nat) (src : Ipv4Addr)
    (rest : List StreamItem) :
    recvFrom port cap (Except.ok (bytes, IpAddr.v4 src) :: rest) =
      if port ≠ getDestination bytes then recvFrom port cap rest
      else if getChecksum bytes ≠ 0 ∧ getChecksum bytes ≠ ipv4Checksum bytes src localAddr then
        recvFrom port cap rest
      else some (deliver cap bytes src) := rfl

/-- Whatever recv_from returns comes from a packet of the stream whose
source address was IPv4 and whose destination port equals the bound port,
via the final copy-and-return step. -/
lemma recvFrom_matched (port cap : Nat) :
    ∀ (stream : List StreamItem) (out : RecvOutcome), recvFrom port cap stream = some out →
      ∃ b s, Except.ok (b, IpAddr.v4 s) ∈ stream ∧ getDestination b = port ∧
        out = deliver cap b s := by
  intro stream
  induction stream with
  | nil => intro out h; simp [recvFrom_nil] at h
  | cons item rest ih =>
    intro out h
    rcases item with e | ⟨bytes, ip⟩
    · rw [recvFrom_error_step] at h
      obtain ⟨b, s, hmem, hd, ho⟩ := ih out h
      exact ⟨b, s, List.mem_cons_of_mem _ hmem, hd, ho⟩
    · rcases ip with src | _
      · rw [recvFrom_v4_step] at h
        by_cases h1 : port ≠ getDestination bytes
        · rw [if_pos h1] at h
          obtain ⟨b, s, hmem, hd, ho⟩ := ih out h
          exact ⟨b, s, List.mem_cons_of_mem _ hmem, hd, ho⟩
        · rw [if_neg h1] at h
          by_cases h2 : getChecksum bytes ≠ 0 ∧
              getChecksum bytes ≠ ipv4Checksum bytes src localAddr
          · rw [if_pos h2] at h
            obtain ⟨b, s, hmem, hd, ho⟩ := ih out h
            exact ⟨b, s, List.mem_cons_of_mem _ hmem, hd, ho⟩
          · rw [if_neg h2] at h
            refine ⟨bytes, src, List.mem_cons_self _ _, (not_ne_iff.mp h1).symm, ?_⟩
            exact (Option.some_inj.mp h).symm
      · rw [recvFrom_v6_step] at h
        obtain ⟨b, s, hmem, hd, ho⟩ := ih out h
        exact ⟨b, s, List.mem_cons_of_mem _ hmem, hd, ho⟩

/-! ## Claim theorems: send path -/

/-- Claim C1, counterexample: a payload of 65528 bytes exceeds 65527, yet
send_to does not fail — it hands the transport a packet (the length field
silently wrapped), contradicting the claimed payload-too-large error. -/
theorem send_oversize_no_error :
    65527 < (List.replicate 65528 (0 : Nat)).length ∧
    sendTo 9999 (List.replicate 65528 (0 : Nat)) [SockAddr.v4 ⟨10, 0, 0, 1⟩ 8888] =
      Except.ok (builtPacket 9999 8888 ⟨10, 0, 0, 1⟩ (List.replicate 65528 (0 : Nat)),
        ⟨10, 0, 0, 1⟩) :=
  ⟨by rw [List.length_replicate]; norm_num, rfl⟩

/-- Claim C1, amended: for a payload longer than 65527 bytes, send_to does
not fail with a payload-too-large error; it builds the datagram anyway and
hands it to the transport, with the 16-bit length field wrapped to
(8 + len) mod 65536. -/
theorem send_no_payload_too_large (port destPort : Nat) (ip : Ipv4Addr)
    (payload : List Nat) (rest : List SockAddr)
    (_hbig : 65527 < payload.length) :
    sendTo port payload (SockAddr.v4 ip destPort :: rest) =
      Except.ok (builtPacket port destPort ip payload, ip) ∧
    getLength (builtPacket port destPort ip payload) = (8 + payload.length) % 65536 := by
  refine ⟨rfl, ?_⟩
  unfold builtPacket
  exact getLength_packet _ _ _ _ _ (by omega)

/-- Witness for send_no_payload_too_large at a 65528-byte payload. -/
theorem send_no_payload_too_large_witness :
    65527 < (List.replicate 65528 (0 : Nat)).length ∧
    (sendTo 9999 (List.replicate 65528 (0 : Nat)) [SockAddr.v4 ⟨10, 0, 0, 2⟩ 8888] =
        Except.ok (builtPacket 9999 8888 ⟨10, 0, 0, 2⟩ (List.replicate 65528 (0 : Nat)),
          ⟨10, 0, 0, 2⟩) ∧
      getLength (builtPacket 9999 8888 ⟨10, 0, 0, 2⟩ (List.replicate 65528 (0 : Nat))) =
        (8 + (List.replicate 65528 (0 : Nat)).length) % 65536) :=
  ⟨by rw [List.length_replicate]; norm_num,
    send_no_payload_too_large 9999 8888 ⟨10, 0, 0, 2⟩ _ _ (by rw [List.length_replicate]; norm_num)⟩

/-- Claim C6: for payload length at most 65527 (and 16-bit ports, as in the
Rust types), the built datagram's length field equals 8 + len, its source
port field equals the bound port and its destination port field equals the
resolved destination's port. -/
theorem send_header_fields (port destPort : Nat) (ip : Ipv4Addr) (payload : List Nat)
    (hport : port < 65536) (hdest : destPort < 65536) (hlen : payload.length ≤ 65527) :
    getLength (builtPacket port destPort ip payload) = 8 + payload.length ∧
    getSource (builtPacket port destPort ip payload) = port ∧
    getDestination (builtPacket port destPort ip payload) = destPort := by
  unfold builtPacket
  refine ⟨?_, getSource_packet _ _ _ _ _ hport, getDestination_packet _ _ _ _ _ hdest⟩
  rw [getLength_packet _ _ _ _ _ (by omega)]
  omega

/-- Witness for send_header_fields on the 5-byte payload of the spec's
end-to-end example (ports 9999 to 8888). -/
theorem send_header_fields_witness :
    9999 < 65536 ∧ 8888 < 65536 ∧
      ([104, 101, 108, 108, 111] : List Nat).length ≤ 65527 ∧
    (getLength (builtPacket 9999 8888 ⟨127, 0, 0, 1⟩ [104, 101, 108, 108, 111]) =
        8 + ([104, 101, 108, 108, 111] : List Nat).length ∧
      getSource (builtPacket 9999 8888 ⟨127, 0, 0, 1⟩ [104, 101, 108, 108, 111]) = 9999 ∧
      getDestination (builtPacket 9999 8888 ⟨127, 0, 0, 1⟩ [104, 101, 108, 108, 111]) = 8888) :=
  ⟨by decide, by decide, by decide,
    send_header_fields 9999 8888 ⟨127, 0, 0, 1⟩ _ (by decide) (by decide) (by decide)⟩

/-- Claim C7: a destination that resolves to an IPv6 socket address makes
send_to fail with the unsupported-address-family error; no packet is handed
to the transport. -/
theorem send_ipv6_rejected (port : Nat) (payload : List Nat) (rest : List SockAddr) :
    sendTo port payload (SockAddr.v6 :: rest) =
      Except.error SendError.ipv6NotSupported := rfl

/-- Claim C8: the checksum stored in a built datagram is the IPv4 UDP
pseudo-header checksum computed with LOCAL_ADDR as the source address and
the resolved destination IP as the destination address, and recomputing the
checksum of the finished packet with those same two addresses returns the
stored value (the stored word is skipped by the algorithm). -/
theorem send_checksum_roundtrip (port destPort : Nat) (ip : Ipv4Addr)
    (payload : List Nat) :
    getChecksum (builtPacket port destPort ip payload) =
      ipv4Checksum (provisionalPacket port destPort payload) localAddr ip ∧
    ipv4Checksum (builtPacket port destPort ip payload) localAddr ip =
      getChecksum (builtPacket port destPort ip payload) := by
  have hle : sendChecksum port destPort ip payload ≤ 65535 := ipv4Checksum_le _ _ _
  have h1 : getChecksum (builtPacket port destPort ip payload) =
      sendChecksum port destPort ip payload := by
    unfold builtPacket
    exact getChecksum_packet _ _ _ _ _ (by omega)
  refine ⟨h1, ?_⟩
  rw [h1]
  unfold builtPacket
  rw [ipv4Checksum_checksum_field port destPort ((8 + payload.length) % 65536)
    (sendChecksum port destPort ip payload) 0 payload localAddr ip]
  rfl

/-! ## Claim theorems: receive path -/

/-- Claim C2, counterexample: a transport failure while pulling packets is
not propagated — the loop keeps scanning past it and a later matching
packet is returned as if nothing had gone wrong. -/
theorem recv_error_swallowed :
    recvFrom 8888 100
        [Except.error (),
         Except.ok (udpHeader 9999 8888 13 0 ++ [104, 101, 108, 108, 111],
           IpAddr.v4 ⟨127, 0, 0, 1⟩)] =
      some (RecvOutcome.ok 5 (SockAddr.v4 ⟨127, 0, 0, 1⟩ 9999)) := by decide

/-- Claim C2, amended: a failure of the packet iterator is silently skipped
by the `if let Ok` pattern and scanning continues with the rest of the
stream; recv_from never aborts on it. -/
theorem recv_transport_error_skipped (port cap : Nat) (e : Unit)
    (rest : List StreamItem) :
    recvFrom port cap (Except.error e :: rest) = recvFrom port cap rest := rfl

/-- Claim C3: a packet whose destination port differs from the bound port is
discarded silently and scanning continues; and whatever recv_from returns
originates, via the copy-and-return step, from a stream packet whose
destination port equals the bound port. -/
theorem recv_port_filter (port cap : Nat) (bytes : List Nat) (src : Ipv4Addr)
    (rest stream : List StreamItem) (out : RecvOutcome)
    (hne : port ≠ getDestination bytes)
    (hout : recvFrom port cap stream = some out) :
    recvFrom port cap (Except.ok (bytes, IpAddr.v4 src) :: rest) = recvFrom port cap rest ∧
    ∃ b s, Except.ok (b, IpAddr.v4 s) ∈ stream ∧ getDestination b = port ∧
      out = deliver cap b s := by
  refine ⟨?_, recvFrom_matched port cap stream out hout⟩
  rw [recvFrom_v4_step, if_pos hne]

/-- Witness for recv_port_filter: a packet for port 7777 is skipped by a
socket bound to 8888, while a packet for 8888 is matched and returned. -/
theorem recv_port_filter_witness :
    8888 ≠ getDestination (udpHeader 1111 7777 8 0) ∧
    recvFrom 8888 50
        ([Except.ok (udpHeader 9999 8888 13 0 ++ [104, 101, 108, 108, 111],
          IpAddr.v4 ⟨127, 0, 0, 1⟩)] : List StreamItem) =
      some (RecvOutcome.ok 5 (SockAddr.v4 ⟨127, 0, 0, 1⟩ 9999)) ∧
    (recvFrom 8888 50
        ((Except.ok (udpHeader 1111 7777 8 0, IpAddr.v4 ⟨10, 0, 0, 9⟩) : StreamItem) :: []) =
      recvFrom 8888 50 [] ∧
     ∃ b s,
       (Except.ok (b, IpAddr.v4 s) : StreamItem) ∈
         ([Except.ok (udpHeader 9999 8888 13 0 ++ [104, 101, 108, 108, 111],
           IpAddr.v4 ⟨127, 0, 0, 1⟩)] : List StreamItem) ∧
       getDestination b = 8888 ∧
       RecvOutcome.ok 5 (SockAddr.v4 ⟨127, 0, 0, 1⟩ 9999) = deliver 50 b s) :=
  ⟨by decide, by decide,
    recv_port_filter 8888 50 (udpHeader 1111 7777 8 0) ⟨10, 0, 0, 9⟩ []
      ([Except.ok (udpHeader 9999 8888 13 0 ++ [104, 101, 108, 108, 111],
        IpAddr.v4 ⟨127, 0, 0, 1⟩)] : List StreamItem)
      (RecvOutcome.ok 5 (SockAddr.v4 ⟨127, 0, 0, 1⟩ 9999))
      (by decide) (by decide)⟩

/-- Claim C4: a packet for the bound port whose nonzero checksum field
differs from the recomputed pseudo-header checksum — computed with the
packet's actual source IP as the first address argument and LOCAL_ADDR as
the second — is discarded silently and scanning continues. -/
theorem recv_checksum_reject (port cap : Nat) (bytes : List Nat) (src : Ipv4Addr)
    (rest : List StreamItem)
    (hdst : getDestination bytes = port)
    (hnz : getChecksum bytes ≠ 0)
    (hbad : getChecksum bytes ≠ ipv4Checksum bytes src localAddr) :
    recvFrom port cap (Except.ok (bytes, IpAddr.v4 src) :: rest) =
      recvFrom port cap rest := by
  rw [recvFrom_v4_step, if_neg (not_ne_iff.mpr hdst.symm), if_pos ⟨hnz, hbad⟩]

/-- Witness for recv_checksum_reject: checksum field 7 does not match the
recomputed checksum of the packet, so the packet is skipped. -/
theorem recv_checksum_reject_witness :
    getDestination (udpHeader 9999 8888 13 7 ++ [104, 101, 108, 108, 111]) = 8888 ∧
    getChecksum (udpHeader 9999 8888 13 7 ++ [104, 101, 108, 108, 111]) ≠ 0 ∧
    getChecksum (udpHeader 9999 8888 13 7 ++ [104, 101, 108, 108, 111]) ≠
      ipv4Checksum (udpHeader 9999 8888 13 7 ++ [104, 101, 108, 108, 111])
        ⟨127, 0, 0, 1⟩ localAddr ∧
    recvFrom 8888 50
        [Except.ok (udpHeader 9999 8888 13 7 ++ [104, 101, 108, 108, 111],
          IpAddr.v4 ⟨127, 0, 0, 1⟩)] =
      recvFrom 8888 50 [] :=
  ⟨by decide, by decide, by decide,
    recv_checksum_reject 8888 50 _ ⟨127, 0, 0, 1⟩ []
      (by decide) (by decide) (by decide)⟩

/-- Claim C5: a packet for the bound port whose checksum field is exactly 0
is accepted unconditionally — no checksum verification takes place and the
loop proceeds directly to the copy-and-return step. -/
theorem recv_zero_checksum_accept (port cap : Nat) (bytes : List Nat) (src : Ipv4Addr)
    (rest : List StreamItem)
    (hdst : getDestination bytes = port)
    (hzero : getChecksum bytes = 0) :
    recvFrom port cap (Except.ok (bytes, IpAddr.v4 src) :: rest) =
      some (deliver cap bytes src) := by
  have h2 : ¬ (getChecksum bytes ≠ 0 ∧
      getChecksum bytes ≠ ipv4Checksum bytes src localAddr) :=
    fun h => h.1 hzero
  rw [recvFrom_v4_step, if_neg (not_ne_iff.mpr hdst.symm), if_neg h2]

/-- Witness for recv_zero_checksum_accept on a one-byte datagram with a
zero checksum field. -/
theorem recv_zero_checksum_accept_witness :
    getDestination (udpHeader 1234 4000 9 0 ++ [42]) = 4000 ∧
    getChecksum (udpHeader 1234 4000 9 0 ++ [42]) = 0 ∧
    recvFrom 4000 10 [Except.ok (udpHeader 1234 4000 9 0 ++ [42], IpAddr.v4 ⟨10, 1, 2, 3⟩)] =
      some (deliver 10 (udpHeader 1234 4000 9 0 ++ [42]) ⟨10, 1, 2, 3⟩) :=
  ⟨by decide, by decide,
    recv_zero_checksum_accept 4000 10 _ ⟨10, 1, 2, 3⟩ [] (by decide) (by decide)⟩

/-- Claim C9: a packet passing the port filter and the checksum filter is
delivered: its payload is copied into the caller's buffer — a propagated
error if the buffer cannot hold it — and otherwise the call returns the
copied byte count together with the origin formed from the packet's source
IP and its UDP source-port field. -/
theorem recv_deliver (port cap : Nat) (bytes : List Nat) (src : Ipv4Addr)
    (rest : List StreamItem)
    (hdst : getDestination bytes = port)
    (hck : getChecksum bytes = 0 ∨ getChecksum bytes = ipv4Checksum bytes src localAddr) :
    recvFrom port cap (Except.ok (bytes, IpAddr.v4 src) :: rest) =
      some (deliver cap bytes src) ∧
    ((bytes.drop 8).length ≤ cap →
      deliver cap bytes src =
        RecvOutcome.ok (bytes.drop 8).length (SockAddr.v4 src (getSource bytes))) ∧
    (cap < (bytes.drop 8).length → deliver cap bytes src = RecvOutcome.copyError) := by
  have h2 : ¬ (getChecksum bytes ≠ 0 ∧
      getChecksum bytes ≠ ipv4Checksum bytes src localAddr) := by
    rcases hck with h | h
    · exact fun hc => hc.1 h
    · exact fun hc => hc.2 h
  refine ⟨by rw [recvFrom_v4_step, if_neg (not_ne_iff.mpr hdst.symm), if_neg h2], ?_, ?_⟩
  · intro hfit
    unfold deliver
    rw [if_pos hfit]
  · intro hover
    unfold deliver
    rw [if_neg (by omega)]

/-- Witness for recv_deliver on a packet carrying a valid nonzero checksum
(29752, the pseudo-header checksum of this packet between loopback
addresses). -/
theorem recv_deliver_witness :
    getDestination (udpHeader 9999 8888 13 29752 ++ [104, 101, 108, 108, 111]) = 8888 ∧
    (getChecksum (udpHeader 9999 8888 13 29752 ++ [104, 101, 108, 108, 111]) = 0 ∨
      getChecksum (udpHeader 9999 8888 13 29752 ++ [104, 101, 108, 108, 111]) =
        ipv4Checksum (udpHeader 9999 8888 13 29752 ++ [104, 101, 108, 108, 111])
          ⟨127, 0, 0, 1⟩ localAddr) ∧
    (recvFrom 8888 100
        [Except.ok (udpHeader 9999 8888 13 29752 ++ [104, 101, 108, 108, 111],
          IpAddr.v4 ⟨127, 0, 0, 1⟩)] =
      some (deliver 100 (udpHeader 9999 8888 13 29752 ++ [104, 101, 108, 108, 111])
        ⟨127, 0, 0, 1⟩) ∧
     (((udpHeader 9999 8888 13 29752 ++ [104, 101, 108, 108, 111]).drop 8).length ≤ 100 →
       deliver 100 (udpHeader 9999 8888 13 29752 ++ [104, 101, 108, 108, 111]) ⟨127, 0, 0, 1⟩ =
         RecvOutcome.ok
           ((udpHeader 9999 8888 13 29752 ++ [104, 101, 108, 108, 111]).drop 8).length
           (SockAddr.v4 ⟨127, 0, 0, 1⟩
             (getSource (udpHeader 9999 8888 13 29752 ++ [104, 101, 108, 108, 111])))) ∧
     (100 < ((udpHeader 9999 8888 13 29752 ++ [104, 101, 108, 108, 111]).drop 8).length →
       deliver 100 (udpHeader 9999 8888 13 29752 ++ [104, 101, 108, 108, 111]) ⟨127, 0, 0, 1⟩ =
         RecvOutcome.copyError)) :=
  ⟨by decide, by decide,
    recv_deliver 8888 100 _ ⟨127, 0, 0, 1⟩ [] (by decide) (by decide)⟩

/-- Claim C10: a packet whose source address is IPv6 is silently skipped by
the scanning loop, and every origin address returned by recv_from is an
IPv4 socket address. -/
theorem recv_origin_ipv4 (port cap n : Nat) (a : SockAddr) (bytes : List Nat)
    (rest stream : List StreamItem)
    (hout : recvFrom port cap stream = some (RecvOutcome.ok n a)) :
    recvFrom port cap (Except.ok (bytes, IpAddr.v6) :: rest) = recvFrom port cap rest ∧
    ∃ ip p, a = SockAddr.v4 ip p := by
  refine ⟨recvFrom_v6_step port cap bytes rest, ?_⟩
  obtain ⟨b, s, _, _, ho⟩ := recvFrom_matched port cap stream _ hout
  unfold deliver at ho
  by_cases hfit : (b.drop 8).length ≤ cap
  · rw [if_pos hfit] at ho
    injection ho with h1 h2
    exact ⟨s, getSource b, h2⟩
  · rw [if_neg hfit] at ho
    simp at ho

/-- Witness for recv_origin_ipv4: an IPv6-sourced packet is skipped and the
returned origin of a matched IPv4 packet is a V4 socket address. -/
theorem recv_origin_ipv4_witness :
    recvFrom 7777 20
        ([Except.ok (udpHeader 9999 7777 9 0 ++ [65], IpAddr.v4 ⟨192, 168, 1, 5⟩)] :
          List StreamItem) =
      some (RecvOutcome.ok 1 (SockAddr.v4 ⟨192, 168, 1, 5⟩ 9999)) ∧
    (recvFrom 7777 20 ((Except.ok ([1, 2, 3], IpAddr.v6) : StreamItem) :: []) =
      recvFrom 7777 20 [] ∧
     ∃ ip p, SockAddr.v4 ⟨192, 168, 1, 5⟩ 9999 = SockAddr.v4 ip p) :=
  ⟨by decide,
    recv_origin_ipv4 7777 20 1 (SockAddr.v4 ⟨192, 168, 1, 5⟩ 9999) [1, 2, 3] []
      ([Except.ok (udpHeader 9999 7777 9 0 ++ [65], IpAddr.v4 ⟨192, 168, 1, 5⟩)] :
        List StreamItem)
      (by decide)⟩
